import Mathlib

/-!
Shallow embedding of the `trackable` crate's `src/error.rs` (error kinds,
type-erased causes, tracking history) and proofs of the specification's
claims about it.

Modelling conventions:
* Rust traits become Lean structures of operations (`ErrorKind K` bundles the
  trait methods for a kind type `K`); a trait impl becomes a concrete value of
  that structure.
* The type-erased `Box<Error + Send + Sync>` becomes a dependent pair over an
  arbitrary index type `ι` of runtime type identities (with decidable
  equality, mirroring `TypeId` comparison) and a payload family `V : ι → Type`.
* `Arc` sharing has no memory identity in a pure model; a `Cause` holds the
  boxed value itself, and clone-sharing is observed through value equality.
* Formatter-based display methods become `String`-producing functions that
  follow the same sequence of writes as the Rust code.
-/

namespace TrackableRs

/-- Modelled from the spec: `Location` is defined in the crate's lib.rs, which
is not under src/. Per the spec it is an immutable record of a source position
(file path, line number) plus an optional free-text comment. -/
structure Location where
  file : String
  line : Nat
  message : Option String
deriving DecidableEq

/-- Modelled from the spec: the generic `History<E>` lives in the crate's
lib.rs, not under src/. Per the spec it is an ordered, append-only sequence of
events. -/
abbrev HistoryG (E : Type) : Type := List E

/-- `pub type History = ::History<Location>;` (src/error.rs line 64). -/
abbrev History : Type := HistoryG Location

/-- Modelled from the spec: `History::new()` returns an empty ordered
sequence. -/
def HistoryG.new {E : Type} : HistoryG E := []

/-- Modelled from the spec: `History::push(event)` appends `event` as the new
last element. -/
def HistoryG.push {E : Type} (h : HistoryG E) (e : E) : HistoryG E := h ++ [e]

/-- Modelled from the spec: `Location`'s display form, `at <file>:<line>`
optionally suffixed with ` -- <message>` when a message is present. -/
def Location.displayStr (l : Location) : String :=
  "at " ++ l.file ++ ":" ++ toString l.line ++
    (match l.message with
     | some m => " -- " ++ m
     | none => "")

/-- Modelled from the spec: the `History` display block, a `HISTORY:` header
line followed by one line per event with its zero-based index in square
brackets and the event's own display form. -/
def History.displayStr (h : History) : String :=
  "HISTORY:\n" ++
    String.join (h.enum.map (fun p =>
      "  [" ++ toString p.1 ++ "] " ++ Location.displayStr p.2 ++ "\n"))

/-- `BoxError = Box<Error + Send + Sync>` (src/error.rs line 58): a
type-erased boxed error value. `ty` is the runtime type identity of the
erased value (Rust's `TypeId`), `val` the value itself. -/
structure BoxError (ι : Type) (V : ι → Type) where
  ty : ι
  val : V ty

/-- Rust's checked `downcast_ref::<T>()` on a boxed `dyn Error`: yields the
payload exactly when the stored runtime type identity equals the requested
one, and `none` otherwise. -/
def BoxError.downcast_ref {ι : Type} [DecidableEq ι] {V : ι → Type}
    (t : ι) (b : BoxError ι V) : Option (V t) :=
  if h : b.ty = t then some (h ▸ b.val) else none

/-- `struct Cause(Arc<BoxError>)` (src/error.rs line 385). The `Arc` is a
shared handle; in this pure model the `Cause` carries the boxed value, and
handle-sharing between clones is observed as equality of this value. -/
structure Cause (ι : Type) (V : ι → Type) where
  ref : BoxError ι V

/-- The `ErrorKind` trait (src/error.rs lines 92-108) as a bundle of its two
methods for a kind type `K`: `description` and `display` (render into a
formatter, modelled as producing a `String`). -/
structure ErrorKind (K : Type) where
  description : K → String
  display : K → String

/-- The trait's default method bodies (src/error.rs lines 98-107):
`description` returns the fixed text `An error`; `display` writes the
debugging form of the kind, supplied here as `debugFmt` since `ErrorKind`
requires `fmt::Debug`. -/
def ErrorKind.mkDefault {K : Type} (debugFmt : K → String) : ErrorKind K :=
  { description := fun _ => "An error"
    display := debugFmt }

/-- The lowercase hexadecimal digits of `n` with no leading zeros, as Rust's
`\u` escape prints the code point. -/
def hexLower (n : Nat) : String :=
  String.mk (Nat.toDigits 16 n)

/-- The escaping Rust's `Debug` formatting (`char::escape_debug` with string
literal arguments) applies to a character inside a string: NUL, tab, carriage
return and newline get their two-character escapes, backslash and double
quote are backslash-escaped, unprintable characters are rendered as a `\u`
escape of their lowercase-hex code point, and printable characters pass
through unchanged. Unprintability is modelled exactly on the ranges relevant
here: the C0 controls, DEL and the C1 controls; Unicode's unprintability
tables above U+00A0 are not modelled (such characters pass through), and the
theorems below only cover ASCII, where this model is exact. -/
def escapeDebugChar (c : Char) : String :=
  if c = '\x00' then "\\0"
  else if c = '\t' then "\\t"
  else if c = '\r' then "\\r"
  else if c = '\n' then "\\n"
  else if c = '\\' then "\\\\"
  else if c = '"' then "\\\""
  else if c.toNat < 0x20 ∨ (0x7F ≤ c.toNat ∧ c.toNat < 0xA0) then
    "\\u\x7b" ++ hexLower c.toNat ++ "\x7d"
  else String.singleton c

/-- Rust's `{:?}` (Debug) rendering of a `String`: the text surrounded by
double quotes, with each character debug-escaped (see `escapeDebugChar` for
the modelled escaping, exact on ASCII). -/
def rustDebugString (s : String) : String :=
  "\"" ++ (s.data.foldr (fun c acc => escapeDebugChar c ++ acc) "") ++ "\""

/-- `impl ErrorKind for String` (src/error.rs lines 109-113): overrides
`description` to return the text itself; `display` is left at the trait
default, which writes the Debug form of the `String`. -/
def ErrorKind.instString : ErrorKind String :=
  { ErrorKind.mkDefault rustDebugString with
    description := fun s => s }

/-- `struct Failed;` (src/error.rs line 69), the built-in opaque kind. -/
inductive Failed : Type
  | mk : Failed
deriving DecidableEq

/-- `impl ErrorKind for Failed` (src/error.rs lines 70-74): `description`
returns the fixed literal; `display` stays at the default, the Debug form of
the unit struct, which prints its name. -/
def ErrorKind.instFailed : ErrorKind Failed :=
  { ErrorKind.mkDefault (fun _ => "Failed") with
    description := fun _ => "Failed" }

/-- `struct TrackableError<K>` (src/error.rs lines 289-293): a kind, an
optional cause and a history. -/
structure TrackableError (K : Type) (ι : Type) (V : ι → Type) where
  kind : K
  cause : Option (Cause ι V)
  history : History

/-- `TrackableError::new(kind, cause)` (src/error.rs lines 296-305): wraps the
(already boxed) cause in a fresh `Cause` and starts with `History::new()`. -/
def TrackableError.new {K ι : Type} {V : ι → Type}
    (kind : K) (cause : BoxError ι V) : TrackableError K ι V :=
  { kind := kind
    cause := some ⟨cause⟩
    history := HistoryG.new }

/-- `TrackableError::from_kind(kind)` (src/error.rs lines 310-316): no cause,
empty history. -/
def TrackableError.from_kind {K ι : Type} {V : ι → Type}
    (kind : K) : TrackableError K ι V :=
  { kind := kind
    cause := none
    history := HistoryG.new }

/-- `impl<K: ErrorKind> From<K> for TrackableError<K>` (src/error.rs lines
336-341): delegates to `from_kind`. -/
def TrackableError.ofKind {K ι : Type} {V : ι → Type}
    (kind : K) : TrackableError K ι V :=
  TrackableError.from_kind kind

/-- `TrackableError::concrete_cause::<T>()` (src/error.rs lines 329-334):
`self.cause.as_ref().and_then(|c| c.0.downcast_ref())`. -/
def TrackableError.concrete_cause {K ι : Type} [DecidableEq ι] {V : ι → Type}
    (e : TrackableError K ι V) (t : ι) : Option (V t) :=
  e.cause.bind (fun c => BoxError.downcast_ref t c.ref)

/-- `ErrorKindExt::error` (src/error.rs lines 131-133): `self.into()`, which
goes through the `From<K>` impl. -/
def ErrorKindExt.error {K ι : Type} {V : ι → Type}
    (k : K) : TrackableError K ι V :=
  TrackableError.ofKind k

/-- `ErrorKindExt::cause` (src/error.rs lines 147-152):
`TrackableError::new(self, cause.into())`; the `Into<BoxError>` conversion is
taken as already applied, so the argument arrives boxed. -/
def ErrorKindExt.cause {K ι : Type} {V : ι → Type}
    (k : K) (c : BoxError ι V) : TrackableError K ι V :=
  TrackableError.new k c

/-- `ErrorKindExt::takes_over` (src/error.rs lines 189-200): builds a
`TrackableError` with the new kind and the donor's cause and history; the
`Into<TrackableError<K>>` bound on the donor is taken as already applied. -/
def ErrorKindExt.takes_over {K K' ι : Type} {V : ι → Type}
    (k : K) (f : TrackableError K' ι V) : TrackableError K ι V :=
  { kind := k
    cause := f.cause
    history := f.history }

/-- The display text of a `Cause`: Rust's `Display` of the boxed `dyn Error`,
which is the underlying value's own display, supplied as `disp`. -/
def Cause.displayText {ι : Type} {V : ι → Type}
    (disp : (t : ι) → V t → String) (c : Cause ι V) : String :=
  disp c.ref.ty c.ref.val

/-- `impl<K: ErrorKind> fmt::Display for TrackableError<K>` (src/error.rs
lines 348-357), following the same sequence of formatter writes:
`self.kind.display(f)`, then if a cause is present
`write!(f, " (cause; {})", e.0)`, then `write!(f, "\n{}", self.history)`. -/
def TrackableError.displayStr {K ι : Type} {V : ι → Type}
    (ek : ErrorKind K) (disp : (t : ι) → V t → String)
    (e : TrackableError K ι V) : String :=
  let s1 := ek.display e.kind
  let s2 := match e.cause with
    | some c => s1 ++ " (cause; " ++ Cause.displayText disp c ++ ")"
    | none => s1
  s2 ++ "\n" ++ History.displayStr e.history

/-- `impl<K: ErrorKind> Error for TrackableError<K>`, `description`
(src/error.rs lines 359-361): delegates to `self.kind.description()`. -/
def TrackableError.errorDescription {K ι : Type} {V : ι → Type}
    (ek : ErrorKind K) (e : TrackableError K ι V) : String :=
  ek.description e.kind

/-- `impl<K: ErrorKind> Error for TrackableError<K>`, `cause` (src/error.rs
lines 362-368): `Some(&**e.0)` when a cause is present, else `None`. -/
def TrackableError.errorCause {K ι : Type} {V : ι → Type}
    (e : TrackableError K ι V) : Option (BoxError ι V) :=
  match e.cause with
  | some c => some c.ref
  | none => none

/-- Modelled from the spec: the `Trackable` trait is defined in the crate's
lib.rs, not under src/. Per the spec it exposes optional read access and
optional write access to a `History`; the `&mut` accessor is modelled as an
optional pair of the current history and a setter producing the updated
value. -/
structure TrackableCap (T : Type) (E : Type) where
  history : T → Option (HistoryG E)
  history_mut : T → Option (HistoryG E × (HistoryG E → T))

/-- `impl<K> Trackable for TrackableError<K>` (src/error.rs lines 370-382):
both accessors always return `Some`, with event type `Location`; note the
impl places no bound at all on `K`. -/
def TrackableError.trackableImpl (K ι : Type) (V : ι → Type) :
    TrackableCap (TrackableError K ι V) Location :=
  { history := fun e => some e.history
    history_mut := fun e => some (e.history, fun h => { e with history := h }) }

/-- Modelled from the spec: the `track` operation (the macro layer is outside
src/). If the value exposes a writable `History`, append the given event;
otherwise leave the value unchanged. -/
def track {T E : Type} (cap : TrackableCap T E) (ev : E) (x : T) : T :=
  match cap.history_mut x with
  | some (h, setH) => setH (HistoryG.push h ev)
  | none => x

/-- `#[derive(Clone)]` on `TrackableError` (src/error.rs line 287): clones the
kind by value, clones the `Option<Cause>` (an `Arc` clone, so the same boxed
error is shared) and clones the history `Vec` (a deep copy). In this pure
model all three are value copies; sharing of the cause is observed as
equality of the carried boxed value. -/
def TrackableError.clone {K ι : Type} {V : ι → Type}
    (e : TrackableError K ι V) : TrackableError K ι V :=
  { kind := e.kind
    cause := e.cause
    history := e.history }

/-- A concrete universe of erased error types, used to instantiate the
type-erasure model: the textual fallback type produced by
`Into<BoxError> for String` (std's string-error wrapper), an I/O-style error
carrying an OS error code, and an unrelated third type. -/
inductive ETy : Type
  | strErr : ETy
  | ioNotFound : ETy
  | unrelated : ETy
deriving DecidableEq

/-- Payloads of the concrete erased error types. -/
def EVal : ETy → Type
  | ETy.strErr => String
  | ETy.ioNotFound => Nat
  | ETy.unrelated => Unit

/-- Display of the concrete erased error types: the string wrapper displays
its text verbatim, as std's string-error wrapper does. -/
def eDisp : (t : ETy) → EVal t → String
  | ETy.strErr, s => s
  | ETy.ioNotFound, n => "os error " ++ Nat.repr n
  | ETy.unrelated, _ => "unrelated"

/-- `impl Serialize for Cause` (src/error.rs lines 394-401):
`serializer.serialize_str(&self.0.to_string())` — only the display text is
written. -/
def Cause.serialize {ι : Type} {V : ι → Type}
    (disp : (t : ι) → V t → String) (c : Cause ι V) : String :=
  Cause.displayText disp c

/-- `impl Deserialize for Cause` (src/error.rs lines 402-410): reads a string
and rebuilds the cause as `Cause(Arc::new(s.into()))`, whose concrete type is
std's textual fallback wrapper around the string. -/
def Cause.deserialize (s : String) : Cause ETy EVal :=
  ⟨⟨ETy.strErr, s⟩⟩

/-- Helper: a printable ASCII character other than double quote and
backslash is left unescaped by the debug escaper. -/
theorem escapeDebugChar_eq_singleton (c : Char)
    (h1 : 0x20 ≤ c.toNat) (h2 : c.toNat < 0x7F)
    (h3 : c ≠ '"') (h4 : c ≠ '\\') :
    escapeDebugChar c = String.singleton c := by
  have hz : c ≠ '\x00' := by intro h; subst h; exact absurd h1 (by decide)
  have ht : c ≠ '\t' := by intro h; subst h; exact absurd h1 (by decide)
  have hr : c ≠ '\r' := by intro h; subst h; exact absurd h1 (by decide)
  have hn : c ≠ '\n' := by intro h; subst h; exact absurd h1 (by decide)
  have hu : ¬ (c.toNat < 0x20 ∨ (0x7F ≤ c.toNat ∧ c.toNat < 0xA0)) := by
    omega
  simp only [escapeDebugChar, if_neg hz, if_neg ht, if_neg hr, if_neg hn,
    if_neg h4, if_neg h3, if_neg hu]

/-- Helper: folding the debug escaper over characters that need no escaping
rebuilds exactly the original character list as a string. -/
theorem escapeDebugChar_foldr_of_plain (l : List Char)
    (h : ∀ c ∈ l, escapeDebugChar c = String.singleton c) :
    l.foldr (fun c acc => escapeDebugChar c ++ acc) "" = String.mk l := by
  induction l with
  | nil => rfl
  | cons c l ih =>
    rw [List.foldr_cons, h c (List.mem_cons_self c l),
      ih (fun d hd => h d (List.mem_cons_of_mem c hd))]
    rfl

/-- C1: for every new kind `k1` and donor `d`, `takes_over` yields an error
whose kind is `k1`, whose cause is the donor's cause value, and whose history
is exactly the donor's history (no entry appended); the donor's kind does not
appear in the result. -/
theorem C1_takes_over {K K' ι : Type} {V : ι → Type}
    (k1 : K) (d : TrackableError K' ι V) :
    (ErrorKindExt.takes_over k1 d).kind = k1 ∧
    (ErrorKindExt.takes_over k1 d).cause = d.cause ∧
    (ErrorKindExt.takes_over k1 d).history = d.history :=
  ⟨rfl, rfl, rfl⟩

/-- C2: for every kind `k` and boxed cause `c`, `k.cause(c)` yields an error
whose kind is `k`, whose cause is present and wraps `c`, and whose history is
empty. -/
theorem C2_cause_ctor {K ι : Type} {V : ι → Type} (k : K) (c : BoxError ι V) :
    (ErrorKindExt.cause k c).kind = k ∧
    (ErrorKindExt.cause k c).cause = some ⟨c⟩ ∧
    (ErrorKindExt.cause k c).history = [] :=
  ⟨rfl, rfl, rfl⟩

/-- C3: `concrete_cause` returns a present value exactly when a cause exists
and its stored runtime type identity is exactly the requested one; with no
cause, or any other requested type, it returns `none` (and, being a total
function into `Option`, it cannot panic). -/
theorem C3_concrete_cause {K ι : Type} [DecidableEq ι] {V : ι → Type}
    (e : TrackableError K ι V) (t : ι) :
    (e.concrete_cause t).isSome = true ↔
      ∃ c, e.cause = some c ∧ c.ref.ty = t := by
  cases hc : e.cause with
  | none => simp [TrackableError.concrete_cause, hc]
  | some c =>
    by_cases ht : c.ref.ty = t
    · simp [TrackableError.concrete_cause, hc, BoxError.downcast_ref, ht]
    · simp [TrackableError.concrete_cause, hc, BoxError.downcast_ref, ht]

/-- C4: cloning duplicates the kind and the cause value (the cause handle is
shared, observed here as equality of the carried boxed value); tracking the
clone appends one entry to the clone's own history, which afterwards equals
the original's history plus that entry: the original's entries are an
unchanged prefix of the clone's, and the original value is untouched. -/
theorem C4_clone_diverge {K ι : Type} {V : ι → Type}
    (e : TrackableError K ι V) (l : Location) :
    (TrackableError.clone e).kind = e.kind ∧
    (TrackableError.clone e).cause = e.cause ∧
    (track (TrackableError.trackableImpl K ι V) l
        (TrackableError.clone e)).history = e.history ++ [l] ∧
    (track (TrackableError.trackableImpl K ι V) l
        (TrackableError.clone e)).history.length = e.history.length + 1 ∧
    (track (TrackableError.trackableImpl K ι V) l
        (TrackableError.clone e)).history.take e.history.length = e.history := by
  refine ⟨rfl, rfl, rfl, ?_, ?_⟩
  · show (e.history ++ [l]).length = e.history.length + 1
    simp
  · show (e.history ++ [l]).take e.history.length = e.history
    exact List.take_left e.history [l]

/-- C5: the `Display` rendering of a `TrackableError` is the kind's render
output, then exactly when a cause is present the text ` (cause; ` followed by
the cause's display form and `)`, then a newline and the full history display
block. -/
theorem C5_display {K ι : Type} {V : ι → Type}
    (ek : ErrorKind K) (disp : (t : ι) → V t → String)
    (e : TrackableError K ι V) :
    TrackableError.displayStr ek disp e =
      ek.display e.kind ++
        Option.elim e.cause ""
          (fun c => " (cause; " ++ Cause.displayText disp c ++ ")") ++
        "\n" ++ History.displayStr e.history := by
  cases hc : e.cause with
  | none => simp [TrackableError.displayStr, hc]
  | some c => simp [TrackableError.displayStr, hc, String.append_assoc]

/-- C6 counterexample: the plain-text kind's render output is NOT the text
itself verbatim — for the kind `hi` the default render (the Debug form of the
string) produces a quoted string, not `hi`. -/
theorem C6_string_kind_cex :
    ¬ (ErrorKind.instString.display "hi" = "hi") := by decide

/-- C6 (amended): for the built-in plain-text kind, `description` is the text
itself verbatim, while the render output is the Debug form of the text — the
text wrapped in double quotes with debug escapes; for text made only of
printable ASCII characters other than double quote and backslash (where no
escaping applies), it is exactly the text surrounded by quotes. -/
theorem C6_string_kind_amended (s : String)
    (h : ∀ c ∈ s.data,
      0x20 ≤ c.toNat ∧ c.toNat < 0x7F ∧ c ≠ '"' ∧ c ≠ '\\') :
    ErrorKind.instString.description s = s ∧
    ErrorKind.instString.display s = "\"" ++ s ++ "\"" := by
  refine ⟨rfl, ?_⟩
  show rustDebugString s = _
  unfold rustDebugString
  rw [escapeDebugChar_foldr_of_plain s.data (fun c hc =>
    escapeDebugChar_eq_singleton c (h c hc).1 (h c hc).2.1
      (h c hc).2.2.1 (h c hc).2.2.2)]

/-- C6 witness: the amended statement evaluated at the concrete kind `hi`. -/
theorem C6_string_kind_amended_witness :
    ErrorKind.instString.description "hi" = "hi" ∧
    ErrorKind.instString.display "hi" = "\"" ++ "hi" ++ "\"" :=
  C6_string_kind_amended "hi" (by decide)

/-- Fidelity check for the escaper on a control character: a C0 control is
rendered as Rust's `\u` escape, not passed through raw. -/
theorem escapeDebugChar_control :
    escapeDebugChar '\x01' = "\\u\x7b1\x7d" := by decide

/-- C7: the standard-error-capability impl's `description` returns exactly
the kind's description, and its cause accessor returns the boxed cause when
present and `none` otherwise. -/
theorem C7_error_impl {K ι : Type} {V : ι → Type}
    (ek : ErrorKind K) (e : TrackableError K ι V) :
    TrackableError.errorDescription ek e = ek.description e.kind ∧
    TrackableError.errorCause e = Option.map Cause.ref e.cause := by
  refine ⟨rfl, ?_⟩
  cases hc : e.cause <;> simp [TrackableError.errorCause, hc]

/-- C8: for every kind `k`, `k.error()` — which goes through the `From<K>`
conversion — yields an error whose kind is `k`, whose cause is absent, and
whose history is empty. -/
theorem C8_error_ctor (K ι : Type) (V : ι → Type) (k : K) :
    (@ErrorKindExt.error K ι V k).kind = k ∧
    (@ErrorKindExt.error K ι V k).cause = none ∧
    (@ErrorKindExt.error K ι V k).history = [] ∧
    @ErrorKindExt.error K ι V k = @TrackableError.ofKind K ι V k ∧
    @TrackableError.ofKind K ι V k = @TrackableError.from_kind K ι V k :=
  ⟨rfl, rfl, rfl, rfl, rfl⟩

/-- C9: serializing a `Cause` produces only its display text; deserializing
rebuilds the cause as the textual fallback type, so its display round-trips,
the reconstructed runtime type is always the fallback type (the original
concrete type is lost), and a downcast on a deserialized cause succeeds
exactly for the textual fallback type. -/
theorem C9_serde (c : Cause ETy EVal) (s : String) (t : ETy) :
    Cause.serialize eDisp c = Cause.displayText eDisp c ∧
    Cause.displayText eDisp (Cause.deserialize s) = s ∧
    (Cause.deserialize (Cause.serialize eDisp c)).ref.ty = ETy.strErr ∧
    ((((Cause.deserialize s).ref.downcast_ref t).isSome = true) ↔
      t = ETy.strErr) := by
  refine ⟨rfl, rfl, rfl, ?_⟩
  cases t <;> simp [Cause.deserialize, BoxError.downcast_ref]

/-- C10: for every kind type `K` — quantified with no constraint at all — the
`Trackable` impl of `TrackableError<K>` always supports tracking: `history`
returns the error's history, and `history_mut` returns a present writable
handle (the current history with a setter that installs any new history). -/
theorem C10_trackable_total (K ι : Type) (V : ι → Type)
    (e : TrackableError K ι V) :
    (TrackableError.trackableImpl K ι V).history e = some e.history ∧
    ∃ setH,
      (TrackableError.trackableImpl K ι V).history_mut e
        = some (e.history, setH) ∧
      ∀ h, (setH h).history = h :=
  ⟨rfl, ⟨fun h => { e with history := h }, rfl, fun _ => rfl⟩⟩

end TrackableRs
